import Mathlib

/-!
Shallow embedding of the scenario-estimation engine of the campus energy
dashboard (source file src/unnamed/part_000, functions `updateSimulation`,
`getMonthlyBaseline`, `normalizeTotalGwh` and the constants
`simulatorAssumptions`). JavaScript numbers are modelled as rationals;
a field that may be `undefined` (or `NaN`, which behaves like a falsy
value in every relevant code path) is modelled as `Option ℚ`.
-/

namespace EnergySim

/-- JavaScript `a || b` on a numeric field: `undefined`, `NaN` and `0` are
falsy and fall through to the default; any other number is returned. -/
def jsOr (a : Option ℚ) (b : ℚ) : ℚ :=
  match a with
  | none => b
  | some v => if v = 0 then b else v

/-- The fixed assumption constants of the simulator (source lines 1111-1117). -/
structure Assumptions where
  scheduleMinPct : ℚ
  scheduleMaxPct : ℚ
  mlMinPct : ℚ
  mlMaxPct : ℚ
  peakReductionFactor : ℚ

def simulatorAssumptions : Assumptions :=
  { scheduleMinPct := 0.08
    scheduleMaxPct := 0.12
    mlMinPct := 0.05
    mlMaxPct := 0.08
    peakReductionFactor := 0.7 }

/-- `const schedulePct = (scheduleVal / 100) * maxSchedulePct` (line 1157). -/
def schedulePct (scheduleVal : ℚ) : ℚ :=
  scheduleVal / 100 * simulatorAssumptions.scheduleMaxPct

/-- `const mlPct = (mlVal / 100) * maxMlPct` (line 1158). -/
def mlPct (mlVal : ℚ) : ℚ :=
  mlVal / 100 * simulatorAssumptions.mlMaxPct

/-- `const overlap = Math.min(schedulePct, mlPct) * 0.3` (line 1159). -/
def overlap (scheduleVal mlVal : ℚ) : ℚ :=
  min (schedulePct scheduleVal) (mlPct mlVal) * 0.3

/-- `const totalPct = Math.min(0.25, schedulePct + mlPct - overlap)` (line 1160). -/
def totalPct (scheduleVal mlVal : ℚ) : ℚ :=
  min 0.25 (schedulePct scheduleVal + mlPct mlVal - overlap scheduleVal mlVal)

/-- `normalizeTotalGwh` (lines 1516-1522). The `null`/`NaN` guard of the
source returns `null`; in the simulator path the argument has already been
defaulted through `||`, so only genuine numbers reach this function and the
guard is modelled at the call site via `Option`. -/
def normalizeTotalGwh (rawValue : ℚ) : ℚ :=
  if rawValue > 1000000 then rawValue / 1000000 else rawValue / 1000

/-- Lines 1162-1163:
`const totalGwh = normalizeTotalGwh(data.summary?.total_electricity_mwh || 68732.9);`
`const campusBaselineKwh = totalGwh ? totalGwh * 1000000 : 68732.9 * 1000;`
A JavaScript truthiness test on a number is a test against `0` (and `NaN`,
which cannot arise here since the input was already defaulted). -/
def campusBaselineKwh (total_electricity_mwh : Option ℚ) : ℚ :=
  let totalGwh := normalizeTotalGwh (jsOr total_electricity_mwh 68732.9)
  if totalGwh = 0 then 68732.9 * 1000 else totalGwh * 1000000

/-- A top-consumer building record; `total_energy` may be absent. -/
structure BuildingRecord where
  building_name : String
  total_energy : Option ℚ

/-- The focus selector value: `campus` or `building-<index>`. -/
inductive Focus where
  | campus : Focus
  | building (index : ℕ) : Focus

/-- Lines 1164-1177: the focus baseline. For a building focus the code looks
the index up in `simulatorFocusBuildings`; a missing building leaves the
campus-wide baseline in place, and a present building uses
`building.total_energy || campusBaselineKwh * 0.02`. -/
def focusBaselineKwh (buildings : List BuildingRecord) (focus : Focus)
    (campusKwh : ℚ) : ℚ :=
  match focus with
  | .campus => campusKwh
  | .building index =>
    match buildings[index]? with
    | none => campusKwh
    | some b => jsOr b.total_energy (campusKwh * 0.02)

/-- `const peakBaseKw = 12000 * (baselineKwh / campusBaselineKwh)` (line 1182). -/
def peakBaseKw (baselineKwh campusKwh : ℚ) : ℚ :=
  12000 * (baselineKwh / campusKwh)

/-- `const peakReductionPct = totalPct * simulatorAssumptions.peakReductionFactor`
(line 1183). -/
def peakReductionPct (tot : ℚ) : ℚ :=
  tot * simulatorAssumptions.peakReductionFactor

/-- `const peakReductionKw = peakBaseKw * peakReductionPct` (line 1184). -/
def peakReductionKw (baselineKwh campusKwh tot : ℚ) : ℚ :=
  peakBaseKw baselineKwh campusKwh * peakReductionPct tot

/-- A monthly trend record `{month, energy_mwh, total_mwh}`; either energy
field may be absent (or `NaN`, which the `||` chain treats like absent). -/
structure TrendRecord where
  month : String
  energy_mwh : Option ℚ
  total_mwh : Option ℚ

/-- `const value = entry.energy_mwh || entry.total_mwh || 0` (line 1405). -/
def entryValue (entry : TrendRecord) : ℚ :=
  jsOr entry.energy_mwh (jsOr entry.total_mwh 0)

/-- The per-month sum accumulated into `totals[month]` (lines 1403-1407). -/
def monthTotal (monthly : List TrendRecord) (m : String) : ℚ :=
  ((monthly.filter (fun e => e.month = m)).map entryValue).sum

/-- `Object.keys(totals).sort()` (line 1409): the distinct month keys of the
input, in ascending lexical order. -/
def monthLabels (monthly : List TrendRecord) : List String :=
  List.insertionSort (· ≤ ·) ((monthly.map (fun e => e.month)).dedup)

/-- `getMonthlyBaseline` (lines 1399-1412): labels are the sorted distinct
month keys; the baseline converts each per-month MWh total to kWh. -/
def getMonthlyBaseline (monthly : List TrendRecord) : List String × List ℚ :=
  let labels := monthLabels monthly
  (labels, labels.map (fun m => monthTotal monthly m * 1000))

/-- `const baselineScale = baselineSum > 0 ? campusBaselineKwh / baselineSum : 1`
(line 1240). -/
def baselineScale (baselineSum campusKwh : ℚ) : ℚ :=
  if baselineSum > 0 then campusKwh / baselineSum else 1

/-- `const scaledBaseline = baseline.map(value => value * baselineScale)`
(line 1241). -/
def scaledBaseline (baseline : List ℚ) (campusKwh : ℚ) : List ℚ :=
  baseline.map (fun value => value * baselineScale baseline.sum campusKwh)

/-- `const focusBaseline = scaledBaseline.map(value => value * (baselineKwh / campusBaselineKwh))`
(line 1242). -/
def focusBaselineSeries (baseline : List ℚ) (campusKwh baselineKwh : ℚ) :
    List ℚ :=
  (scaledBaseline baseline campusKwh).map
    (fun value => value * (baselineKwh / campusKwh))

/-- `const optimized = focusBaseline.map(value => value * (1 - totalPct))`
(line 1243). -/
def optimizedSeries (baseline : List ℚ) (campusKwh baselineKwh tot : ℚ) :
    List ℚ :=
  (focusBaselineSeries baseline campusKwh baselineKwh).map
    (fun value => value * (1 - tot))

/-- The resident inputs of one `updateSimulation` call: the two slider
values, the summary total, the cached building list, the focus selector
and the monthly trend records. -/
structure SimInput where
  scheduleVal : ℚ
  mlVal : ℚ
  total_electricity_mwh : Option ℚ
  buildings : List BuildingRecord
  focus : Focus
  monthly : List TrendRecord

/-- The derived metric bundle computed by `updateSimulation` and handed to
the rendering layer. -/
structure SimResult where
  schedulePct : ℚ
  mlPct : ℚ
  overlap : ℚ
  totalPct : ℚ
  campusBaselineKwh : ℚ
  baselineKwh : ℚ
  savingsKwh : ℚ
  costSavings : ℚ
  co2Savings : ℚ
  peakBaseKw : ℚ
  peakReductionPct : ℚ
  peakReductionKw : ℚ
  labels : List String
  monthlyBaseline : List ℚ
  monthlyOptimized : List ℚ

/-- The computational core of `updateSimulation` (lines 1141-1245), with the
DOM reads and writes stripped: every numeric assignment of the source in
order. -/
def updateSimulation (i : SimInput) : SimResult :=
  let sPct := schedulePct i.scheduleVal
  let mPct := mlPct i.mlVal
  let ov := overlap i.scheduleVal i.mlVal
  let tot := totalPct i.scheduleVal i.mlVal
  let campusKwh := campusBaselineKwh i.total_electricity_mwh
  let baselineKwh := focusBaselineKwh i.buildings i.focus campusKwh
  let gm := getMonthlyBaseline i.monthly
  { schedulePct := sPct
    mlPct := mPct
    overlap := ov
    totalPct := tot
    campusBaselineKwh := campusKwh
    baselineKwh := baselineKwh
    savingsKwh := baselineKwh * tot
    costSavings := baselineKwh * tot * 0.12
    co2Savings := baselineKwh * tot * 0.0004
    peakBaseKw := peakBaseKw baselineKwh campusKwh
    peakReductionPct := peakReductionPct tot
    peakReductionKw := peakReductionKw baselineKwh campusKwh tot
    labels := gm.1
    monthlyBaseline := focusBaselineSeries gm.2 campusKwh baselineKwh
    monthlyOptimized := optimizedSeries gm.2 campusKwh baselineKwh tot }

/-- The error taxonomy the design document assigns to the estimator. -/
inductive SimError where
  | invalidBaseline : SimError

/-- `updateSimulation` as fallible code: the source function contains no
`throw` and no code path that raises, so its embedding into `Except` is
total success. -/
def updateSimulationE (i : SimInput) : Except SimError SimResult :=
  Except.ok (updateSimulation i)

/-- A single-month trend input: only March has records, so the expected
12-month range is not covered. -/
def marchOnly : List TrendRecord := [⟨"2024-03", some 5, none⟩]

/-- An input whose summary reports a negative campus total, driving the
derived campus baseline below zero. -/
def negativeBaselineInput : SimInput :=
  { scheduleVal := 50
    mlVal := 50
    total_electricity_mwh := some (-5)
    buildings := []
    focus := .campus
    monthly := [] }

/-! ## Helper lemmas -/

/-- The pre-clamp blend `a + c - min a c * 0.3` is monotone in its first
argument. -/
theorem preClamp_mono (a b c : ℚ) (h : a ≤ b) :
    a + c - min a c * 0.3 ≤ b + c - min b c * 0.3 := by
  rcases le_total a c with h1 | h1 <;> rcases le_total b c with h2 | h2
  · rw [min_eq_left h1, min_eq_left h2]; linarith
  · rw [min_eq_left h1, min_eq_right h2]; linarith
  · rw [min_eq_right h1, min_eq_left h2]; linarith
  · rw [min_eq_right h1, min_eq_right h2]; linarith

theorem schedulePct_mono (s t : ℚ) (h : s ≤ t) : schedulePct s ≤ schedulePct t := by
  rw [schedulePct, schedulePct]
  exact mul_le_mul_of_nonneg_right (by linarith) (by norm_num [simulatorAssumptions])

theorem mlPct_mono (s t : ℚ) (h : s ≤ t) : mlPct s ≤ mlPct t := by
  rw [mlPct, mlPct]
  exact mul_le_mul_of_nonneg_right (by linarith) (by norm_num [simulatorAssumptions])

theorem sum_map_mul (l : List ℚ) (c : ℚ) :
    (l.map (fun v => v * c)).sum = l.sum * c := by
  induction l with
  | nil => simp
  | cons x xs ih => simp [ih]; ring

/-- Splitting a per-month total over the head record of the list. -/
theorem monthTotal_cons (e : TrendRecord) (rest : List TrendRecord) (m : String) :
    monthTotal (e :: rest) m =
      (if e.month = m then entryValue e else 0) + monthTotal rest m := by
  rw [monthTotal, List.filter_cons]
  split <;> rename_i h
  · simp only [List.map_cons, List.sum_cons]
    simp only [decide_eq_true_eq] at h
    rw [if_pos h, monthTotal]
  · simp only [decide_eq_true_eq] at h
    rw [if_neg h, monthTotal, zero_add]

/-- The derived campus baseline is never zero: a falsy summary value is
replaced by the default before normalization, and normalization of a
nonzero value stays nonzero. -/
theorem campusBaselineKwh_ne_zero (raw : Option ℚ) : campusBaselineKwh raw ≠ 0 := by
  rcases raw with _ | v
  · norm_num [campusBaselineKwh, jsOr, normalizeTotalGwh]
  · by_cases h0 : v = 0
    · subst h0; norm_num [campusBaselineKwh, jsOr, normalizeTotalGwh]
    · rw [campusBaselineKwh]
      simp only [jsOr, if_neg h0]
      rw [normalizeTotalGwh]
      by_cases h1 : v > 1000000
      · rw [if_pos h1]
        have hv : v / 1000000 ≠ 0 := by
          intro h; apply h0; field_simp at h; exact h
        rw [if_neg hv]
        intro h
        apply hv
        have h2 : v / 1000000 * 1000000 / 1000000 = 0 := by rw [h]; norm_num
        simpa using h2
      · rw [if_neg h1]
        have hv : v / 1000 ≠ 0 := by
          intro h; apply h0; field_simp at h; exact h
        rw [if_neg hv]
        intro h
        apply hv
        have h2 : v / 1000 * 1000000 / 1000000 = 0 := by rw [h]; norm_num
        simpa using h2

/-! ## Claims -/

/-- C1: for every `scheduleIntensity` and `mlIntensity` in `[0,100]`, the
total savings fraction `totalPct` computed by the scenario estimator
satisfies `0 ≤ totalPct ≤ 0.25`. -/
theorem totalPct_bounds (s m : ℚ)
    (hs0 : 0 ≤ s) (_hs1 : s ≤ 100) (hm0 : 0 ≤ m) (_hm1 : m ≤ 100) :
    0 ≤ totalPct s m ∧ totalPct s m ≤ 0.25 := by
  have ha : 0 ≤ schedulePct s := by
    have hc : (0:ℚ) ≤ simulatorAssumptions.scheduleMaxPct := by
      norm_num [simulatorAssumptions]
    exact mul_nonneg (div_nonneg hs0 (by norm_num)) hc
  have hb : 0 ≤ mlPct m := by
    have hc : (0:ℚ) ≤ simulatorAssumptions.mlMaxPct := by
      norm_num [simulatorAssumptions]
    exact mul_nonneg (div_nonneg hm0 (by norm_num)) hc
  have hmin0 : 0 ≤ min (schedulePct s) (mlPct m) := le_min ha hb
  have hminb : min (schedulePct s) (mlPct m) ≤ mlPct m := min_le_right _ _
  constructor
  · apply le_min (by norm_num)
    rw [overlap]
    nlinarith
  · exact min_le_left _ _

/-- Witness for C1 at `scheduleIntensity = 50`, `mlIntensity = 30`. -/
theorem totalPct_bounds_witness :
    (0:ℚ) ≤ 50 ∧ (50:ℚ) ≤ 100 ∧ (0:ℚ) ≤ 30 ∧ (30:ℚ) ≤ 100 ∧
    (0 ≤ totalPct 50 30 ∧ totalPct 50 30 ≤ 0.25) :=
  ⟨by decide, by decide, by decide, by decide,
    totalPct_bounds 50 30 (by decide) (by decide) (by decide) (by decide)⟩

/-- C2: holding `mlIntensity` fixed, `totalPct` is monotonically
non-decreasing in `scheduleIntensity` over `[0,100]`, and symmetrically in
`mlIntensity` with `scheduleIntensity` fixed. -/
theorem totalPct_monotone (s t m p : ℚ)
    (_hs0 : 0 ≤ s) (_ht1 : t ≤ 100) (_hm0 : 0 ≤ m) (_hp1 : p ≤ 100)
    (hst : s ≤ t) (hmp : m ≤ p) :
    totalPct s m ≤ totalPct t m ∧ totalPct s m ≤ totalPct s p := by
  constructor
  · rw [totalPct, totalPct, overlap, overlap]
    exact min_le_min le_rfl (preClamp_mono _ _ _ (schedulePct_mono s t hst))
  · rw [totalPct, totalPct, overlap, overlap]
    apply min_le_min le_rfl
    have h2 := preClamp_mono (mlPct m) (mlPct p) (schedulePct s) (mlPct_mono m p hmp)
    have e1 : min (schedulePct s) (mlPct m) = min (mlPct m) (schedulePct s) :=
      min_comm _ _
    have e2 : min (schedulePct s) (mlPct p) = min (mlPct p) (schedulePct s) :=
      min_comm _ _
    linarith

/-- Witness for C2: raising the schedule slider from 40 to 70 and the ML
slider from 20 to 90. -/
theorem totalPct_monotone_witness :
    totalPct 40 20 ≤ totalPct 70 20 ∧ totalPct 40 20 ≤ totalPct 40 90 :=
  totalPct_monotone 40 70 20 90 (by decide) (by decide) (by decide) (by decide)
    (by decide) (by decide)

/-- C3 counterexample: at a summary value of `-5` MWh the derived campus
baseline is `-5000` kWh — non-positive — yet the estimator does not fail
with any `InvalidBaseline` condition: it returns an ordinary result. -/
theorem estimator_no_failure_cex :
    (updateSimulation negativeBaselineInput).campusBaselineKwh = -5000 ∧
    (updateSimulation negativeBaselineInput).campusBaselineKwh ≤ 0 ∧
    (updateSimulationE negativeBaselineInput).isOk = true := by
  refine ⟨?_, ?_, rfl⟩ <;>
    norm_num [updateSimulation, negativeBaselineInput, campusBaselineKwh, jsOr,
      normalizeTotalGwh]

/-- C3 amended: the estimator never fails — there is no error path — and
the campus baseline it divides by is never zero, so no divide-by-zero (or
NaN) can arise from a non-positive summary value; falsy summary values are
replaced by the default before use. -/
theorem estimator_never_fails (i : SimInput) :
    (updateSimulationE i).isOk = true ∧
    (updateSimulation i).campusBaselineKwh ≠ 0 := by
  refine ⟨rfl, ?_⟩
  have h : (updateSimulation i).campusBaselineKwh =
      campusBaselineKwh i.total_electricity_mwh := rfl
  rw [h]
  exact campusBaselineKwh_ne_zero _

/-- C4: the monthly projection rescales the monthly baseline so its sum is
the campus baseline, then scales by the focus share, then applies
`1 - totalPct` pointwise in input order; hence the optimized sum equals
the focus baseline sum times `1 - totalPct` (exactly, over ℚ). -/
theorem monthlyProjection_sums (baseline : List ℚ) (campusKwh baselineKwh tot : ℚ)
    (hsum : 0 < baseline.sum) :
    (scaledBaseline baseline campusKwh).sum = campusKwh ∧
    focusBaselineSeries baseline campusKwh baselineKwh =
      (scaledBaseline baseline campusKwh).map
        (fun value => value * (baselineKwh / campusKwh)) ∧
    optimizedSeries baseline campusKwh baselineKwh tot =
      (focusBaselineSeries baseline campusKwh baselineKwh).map
        (fun value => value * (1 - tot)) ∧
    (optimizedSeries baseline campusKwh baselineKwh tot).sum =
      (focusBaselineSeries baseline campusKwh baselineKwh).sum * (1 - tot) ∧
    (optimizedSeries baseline campusKwh baselineKwh tot).length =
      baseline.length := by
  refine ⟨?_, rfl, rfl, ?_, ?_⟩
  · rw [scaledBaseline, sum_map_mul, baselineScale, if_pos hsum, mul_comm,
      div_mul_cancel₀ _ (ne_of_gt hsum)]
  · rw [optimizedSeries, sum_map_mul]
  · simp [optimizedSeries, focusBaselineSeries, scaledBaseline]

/-- Witness for C4 on the concrete series `[10, 20, 30]` with campus
baseline 600, focus baseline 300 and `totalPct = 0.1`. -/
theorem monthlyProjection_sums_witness :
    (0:ℚ) < ([10, 20, 30] : List ℚ).sum ∧
    ((scaledBaseline [10, 20, 30] 600).sum = 600 ∧
      focusBaselineSeries [10, 20, 30] 600 300 =
        (scaledBaseline [10, 20, 30] 600).map (fun value => value * (300 / 600)) ∧
      optimizedSeries [10, 20, 30] 600 300 0.1 =
        (focusBaselineSeries [10, 20, 30] 600 300).map
          (fun value => value * (1 - 0.1)) ∧
      (optimizedSeries [10, 20, 30] 600 300 0.1).sum =
        (focusBaselineSeries [10, 20, 30] 600 300).sum * (1 - 0.1) ∧
      (optimizedSeries [10, 20, 30] 600 300 0.1).length =
        ([10, 20, 30] : List ℚ).length) :=
  ⟨by norm_num, monthlyProjection_sums [10, 20, 30] 600 300 0.1 (by norm_num)⟩

/-- C5 counterexample: with records only for March, the normalizer returns
just `["2024-03"]`; `"2024-01"` lies in the expected 12-month range but is
absent from the input and is not zero-filled into the output. -/
theorem getMonthlyBaseline_no_zero_fill_cex :
    (getMonthlyBaseline marchOnly).1 = ["2024-03"] ∧
    "2024-01" ∉ (getMonthlyBaseline marchOnly).1 :=
  ⟨rfl, by decide⟩

/-- C5 amended: the normalizer groups records by month key, sums values per
month (duplicates included), returns the distinct month keys in ascending
lexical order, and keeps a month whose entries are all zero-valued (its
total is 0); but a month absent from the input is absent from the output —
there is no zero-filling of the 12-month range. -/
theorem getMonthlyBaseline_spec (monthly : List TrendRecord) :
    ((getMonthlyBaseline monthly).1).Sorted (· ≤ ·) ∧
    ((getMonthlyBaseline monthly).1).Nodup ∧
    (∀ m : String, m ∈ (getMonthlyBaseline monthly).1 ↔
      m ∈ monthly.map (fun e => e.month)) ∧
    (getMonthlyBaseline monthly).2 =
      ((getMonthlyBaseline monthly).1).map (fun m => monthTotal monthly m * 1000) := by
  refine ⟨List.sorted_insertionSort _ _, ?_, ?_, rfl⟩
  · exact ((List.perm_insertionSort _ _).nodup_iff).mpr (List.nodup_dedup _)
  · intro m
    exact ((List.perm_insertionSort _ _).mem_iff).trans (List.mem_dedup)

/-- C6: at both sliders at 100 the estimator produces
`schedulePct = 0.12`, `mlPct = 0.08`, `overlap = 0.024`,
`totalPct = 0.176`, and the 0.25 clamp is not binding. -/
theorem simulator_at_full_intensity :
    schedulePct 100 = 0.12 ∧ mlPct 100 = 0.08 ∧ overlap 100 100 = 0.024 ∧
    totalPct 100 100 = 0.176 ∧
    schedulePct 100 + mlPct 100 - overlap 100 100 < 0.25 := by
  norm_num [totalPct, schedulePct, mlPct, overlap, simulatorAssumptions, min_def]

/-- C7: the peak metrics satisfy
`peakBase = 12000 * (focusBaselineEnergy / campusBaselineEnergy)`,
`peakReductionPct = totalPct * 0.7` and
`peakReductionKw = peakBase * peakReductionPct`; selecting a building whose
`total_energy` is 25,000,000 kWh yields
`peakBase = 12000 * (25000000 / campusBaselineKwh)`. -/
theorem peak_metrics (campusKwh : ℚ) (buildings : List BuildingRecord) (idx : ℕ)
    (b : BuildingRecord) (hb : buildings[idx]? = some b)
    (he : b.total_energy = some 25000000) :
    (∀ baselineKwh tot : ℚ,
      peakBaseKw baselineKwh campusKwh = 12000 * (baselineKwh / campusKwh) ∧
      peakReductionPct tot = tot * 0.7 ∧
      peakReductionKw baselineKwh campusKwh tot =
        peakBaseKw baselineKwh campusKwh * peakReductionPct tot) ∧
    peakBaseKw (focusBaselineKwh buildings (.building idx) campusKwh) campusKwh =
      12000 * (25000000 / campusKwh) := by
  constructor
  · intro baselineKwh tot
    refine ⟨rfl, by norm_num [peakReductionPct, simulatorAssumptions], rfl⟩
  · simp [focusBaselineKwh, hb, he, jsOr, peakBaseKw]

/-- Witness for C7: the sample list's top consumer has
`total_energy = 25,000,000`, and the campus baseline is the default. -/
theorem peak_metrics_witness :
    peakBaseKw
      (focusBaselineKwh [⟨"Wexner Medical Center", some 25000000⟩]
        (.building 0) 68732900) 68732900 =
      12000 * (25000000 / 68732900) :=
  (peak_metrics 68732900 [⟨"Wexner Medical Center", some 25000000⟩] 0
    ⟨"Wexner Medical Center", some 25000000⟩ rfl rfl).2

/-- C8: a trend record with no usable energy field (both `energy_mwh` and
`total_mwh` absent or zero) contributes zero to its month and the
remaining records aggregate as normal; nothing fails. -/
theorem malformed_record_contributes_zero (e : TrendRecord)
    (he : e.energy_mwh = none ∨ e.energy_mwh = some 0)
    (ht : e.total_mwh = none ∨ e.total_mwh = some 0) :
    entryValue e = 0 ∧
    ∀ (rest : List TrendRecord) (m : String),
      monthTotal (e :: rest) m = monthTotal rest m := by
  have hv : entryValue e = 0 := by
    rcases he with h | h <;> rcases ht with h2 | h2 <;>
      simp [entryValue, jsOr, h, h2]
  refine ⟨hv, fun rest m => ?_⟩
  rw [monthTotal_cons, hv]
  simp

/-- Witness for C8: a January record with both energy fields missing. -/
theorem malformed_record_contributes_zero_witness :
    entryValue ⟨"2024-01", none, none⟩ = 0 ∧
    monthTotal [⟨"2024-01", none, none⟩] "2024-01" = monthTotal [] "2024-01" :=
  ⟨(malformed_record_contributes_zero ⟨"2024-01", none, none⟩
      (Or.inl rfl) (Or.inl rfl)).1,
   (malformed_record_contributes_zero ⟨"2024-01", none, none⟩
      (Or.inl rfl) (Or.inl rfl)).2 [] "2024-01"⟩

/-- C9: a missing or zero summary total is replaced by the default campus
baseline of 68,732,900 kWh, and unit normalization divides a raw value by
1,000,000 when it exceeds 1,000,000 and by 1,000 otherwise. -/
theorem baseline_default_and_normalization :
    campusBaselineKwh none = 68732900 ∧
    campusBaselineKwh (some 0) = 68732900 ∧
    (∀ raw : ℚ, raw > 1000000 → normalizeTotalGwh raw = raw / 1000000) ∧
    (∀ raw : ℚ, raw ≤ 1000000 → normalizeTotalGwh raw = raw / 1000) := by
  refine ⟨?_, ?_, ?_, ?_⟩
  · norm_num [campusBaselineKwh, jsOr, normalizeTotalGwh]
  · norm_num [campusBaselineKwh, jsOr, normalizeTotalGwh]
  · intro raw h
    rw [normalizeTotalGwh, if_pos h]
  · intro raw h
    rw [normalizeTotalGwh, if_neg (not_lt.mpr h)]

/-- Witness for C9 at raw values 2,000,000 (above the threshold) and 500
(below it). -/
theorem baseline_default_and_normalization_witness :
    campusBaselineKwh none = 68732900 ∧
    (2000000:ℚ) > 1000000 ∧ normalizeTotalGwh 2000000 = 2000000 / 1000000 ∧
    (500:ℚ) ≤ 1000000 ∧ normalizeTotalGwh 500 = 500 / 1000 :=
  ⟨baseline_default_and_normalization.1, by decide,
    baseline_default_and_normalization.2.2.1 2000000 (by decide), by decide,
    baseline_default_and_normalization.2.2.2 500 (by decide)⟩

/-- C10: a present building whose `total_energy` is missing or zero makes
the focus baseline 2% of the campus baseline; a missing building index
leaves the focus baseline at the campus baseline. -/
theorem focus_fallback (buildings : List BuildingRecord) (campusKwh : ℚ) (idx : ℕ) :
    (∀ b : BuildingRecord, buildings[idx]? = some b →
      (b.total_energy = none ∨ b.total_energy = some 0) →
      focusBaselineKwh buildings (.building idx) campusKwh = campusKwh * 0.02) ∧
    (buildings[idx]? = none →
      focusBaselineKwh buildings (.building idx) campusKwh = campusKwh) := by
  constructor
  · intro b hb hz
    rcases hz with h | h <;> simp [focusBaselineKwh, hb, jsOr, h]
  · intro h
    simp [focusBaselineKwh, h]

/-- Witness for C10: a one-building list with no `total_energy`, and an
empty list. -/
theorem focus_fallback_witness :
    focusBaselineKwh [⟨"A", none⟩] (.building 0) 100 = 100 * 0.02 ∧
    focusBaselineKwh [] (.building 0) 100 = 100 :=
  ⟨(focus_fallback [⟨"A", none⟩] 100 0).1 ⟨"A", none⟩ rfl (Or.inl rfl),
   (focus_fallback [] 100 0).2 rfl⟩

end EnergySim
